import Mathlib

/-!
Shallow embedding of the REPL session manager in
`src/zed-0.166.1/crates/repl/src/session.rs` (the `Session` type, its
`EditorBlock`s, the kernel lifecycle state machine, and the message router).

The editor, kernel transport, renderer and telemetry sink are external
collaborators; they are embedded as explicit parameters (a `BufferSnapshot`
carrying the anchor validity and range-overlap tests) and as an `Effects`
record logging the externally observable actions of each operation
(telemetry events, emitted session events, outbound sends, batched visual
block removals, spawned asynchronous continuations, log lines and cursor
moves).  Asynchronous continuations spawned by an operation are recorded as
`SpawnedTask` values; a separate `run...` function embeds the body of each
continuation, taking an `Option Session` (`none` models a session that was
dropped before the continuation fired).
-/

namespace ZedRepl

/-- Anchors into the editor buffer are opaque here; only the snapshot
predicates below inspect them. -/
abbrev Anchor := Nat

/-- A `Range<Anchor>` from the source. -/
abbrev AnchorRange := Anchor × Anchor

/-- The document snapshot interface the session uses: anchor validity
(`Anchor::is_valid`) and range overlap (`AnchorRangeExt::overlaps`), both
resolved against a point-in-time snapshot (external editor contract). -/
structure BufferSnapshot where
  anchorValid : Anchor → Bool
  rangesOverlap : AnchorRange → AnchorRange → Bool

/-- `runtimelib::ExecutionState`. -/
inductive ExecutionState where
  | Idle
  | Busy
deriving DecidableEq

/-- The content tagged union of a Jupyter protocol message, restricted to the
constructors the session code inspects. -/
inductive MsgContent where
  | ExecuteRequest (code : String)
  | Status (execution_state : ExecutionState)
  | KernelInfoReply (language : String)
  | UpdateDisplayData (display_id : Option String) (data : String)
  | ShutdownRequest (restart : Bool)
  | InterruptRequest
  | Other
deriving DecidableEq

/-- A Jupyter protocol message: its own id, the optional parent correlation
id, and the content union. -/
structure JupyterMessage where
  msg_id : String
  parent_msg_id : Option String
  content : MsgContent
deriving DecidableEq

/-- `ExecutionStatus` from the outputs module, as used by `session.rs`. -/
inductive ExecutionStatus where
  | Unknown
  | ConnectingToKernel
  | Queued
  | Executing
  | Finished
  | ShuttingDown
  | Shutdown
  | KernelErrored (message : String)
  | Restarting
deriving DecidableEq

/-- The per-block output view.  `status` is the execution status field read
and written by `session.rs`; `output` is the accumulated output state and
`displays` the display-id keyed outputs the view currently shows (both
modelled from the spec, since the outputs module is not part of the source
excerpt: "output_state: accumulated, append-only rendering state plus a
status"). -/
structure ExecutionView where
  status : ExecutionStatus
  output : List MsgContent
  displays : List (String × String)
deriving DecidableEq

/-- Modelled from the spec: `ExecutionView::push_message` (outputs module,
not in the source excerpt) appends the inbound message content to the
accumulated, append-only output state. -/
def ExecutionView.push_message (v : ExecutionView) (c : MsgContent) : ExecutionView :=
  { v with output := v.output ++ [c] }

/-- Modelled from the spec: `ExecutionView::update_display_data` (outputs
module, not in the source excerpt) replaces the data of every displayed
output the view currently shows under the given display id; a view that does
not recognize the display id is unaffected. -/
def ExecutionView.update_display_data (v : ExecutionView) (data : String) (did : String) :
    ExecutionView :=
  { v with displays := v.displays.map (fun p => if p.1 = did then (p.1, data) else p) }

/-- Whether the view currently shows an output under the given display id. -/
def ExecutionView.showsDisplay (v : ExecutionView) (did : String) : Bool :=
  v.displays.any (fun p => p.1 = did)

/-- `EditorBlock` from the source: one executed region's anchored range,
invalidation anchor, visual block id and output view. -/
structure EditorBlock where
  code_range : AnchorRange
  invalidation_anchor : Anchor
  block_id : Nat
  execution_view : ExecutionView
deriving DecidableEq

/-- `EditorBlock::handle_message`: push the message content into the
execution view. -/
def EditorBlock.handle_message (b : EditorBlock) (m : JupyterMessage) : EditorBlock :=
  { b with execution_view := b.execution_view.push_message m.content }

/-- Apply `update_display_data` to the block's view. -/
def EditorBlock.updateDisplay (b : EditorBlock) (data : String) (did : String) : EditorBlock :=
  { b with execution_view := b.execution_view.update_display_data data did }

/-- The live-transport payload of `Kernel::RunningKernel`: the last known
execution state and the kernel metadata once received. -/
structure RunningKernelState where
  execution_state : ExecutionState
  kernel_info : Option String
deriving DecidableEq

/-- The `Kernel` lifecycle tagged union.  `StartingKernel` carries an opaque
identifier of the shared startup task. -/
inductive Kernel where
  | StartingKernel (task : Nat)
  | RunningKernel (rk : RunningKernelState)
  | ErroredLaunch (message : String)
  | ShuttingDown
  | Shutdown
  | Restarting
deriving DecidableEq

/-- The lifecycle variant tag, used to state that an operation preserves the
variant. -/
def Kernel.tag : Kernel → Nat
  | .StartingKernel _ => 0
  | .RunningKernel _ => 1
  | .ErroredLaunch _ => 2
  | .ShuttingDown => 3
  | .Shutdown => 4
  | .Restarting => 5

/-- Modelled from the spec: `Kernel::set_execution_state` (kernels module,
not in the source excerpt) updates the running kernel's last-known
execution-state field in place; every other variant has no such field and is
left unchanged. -/
def Kernel.set_execution_state (k : Kernel) (st : ExecutionState) : Kernel :=
  match k with
  | .RunningKernel rk => .RunningKernel { rk with execution_state := st }
  | other => other

/-- Modelled from the spec: `Kernel::set_kernel_info` (kernels module, not in
the source excerpt) records the kernel metadata on the running kernel. -/
def Kernel.set_kernel_info (k : Kernel) (info : String) : Kernel :=
  match k with
  | .RunningKernel rk => .RunningKernel { rk with kernel_info := some info }
  | other => other

/-- Modelled from the spec: the string form of a kernel status used for
telemetry (`KernelStatus`, crate root, not in the source excerpt). -/
def Kernel.statusString : Kernel → String
  | .StartingKernel _ => "Starting"
  | .RunningKernel rk =>
      match rk.execution_state with
      | .Idle => "Idle"
      | .Busy => "Busy"
  | .ErroredLaunch _ => "Error"
  | .ShuttingDown => "Shutting Down"
  | .Shutdown => "Shutdown"
  | .Restarting => "Restarting"

/-- An asynchronous continuation spawned by a session operation. -/
inductive SpawnedTask where
  | queuedSend (m : MsgContent)
  | shutdownSeq
  | restartSeq
  | pendingLaunch
deriving DecidableEq

/-- The externally observable actions an operation performs. -/
structure Effects where
  telemetry : List (String × String) := []
  shutdownEvents : Nat := 0
  sent : List MsgContent := []
  removedBlockBatches : List (List Nat) := []
  spawned : List SpawnedTask := []
  logged : List String := []
  cursorMoved : Option Anchor := none
deriving DecidableEq

/-- Merge two effect records (sequential composition). -/
def Effects.merge (a b : Effects) : Effects :=
  { telemetry := a.telemetry ++ b.telemetry
    shutdownEvents := a.shutdownEvents + b.shutdownEvents
    sent := a.sent ++ b.sent
    removedBlockBatches := a.removedBlockBatches ++ b.removedBlockBatches
    spawned := a.spawned ++ b.spawned
    logged := a.logged ++ b.logged
    cursorMoved := match a.cursorMoved with
      | some x => some x
      | none => b.cursorMoved }

/-- The session state.  `blocks` is the map from outbound message correlation
id to `EditorBlock` (association list with unique keys); `editorAlive` and
`workspaceAlive` model whether the weak editor and workspace handles still
upgrade; `nextTask` generates fresh startup-task identifiers. -/
structure Session where
  kernel : Kernel
  blocks : List (String × EditorBlock)
  kernel_language : String
  editorAlive : Bool
  workspaceAlive : Bool
  nextTask : Nat
deriving DecidableEq

/-- `Session::kernel` (the setter): emits the session-shutdown event when the
new state is `Shutdown`, reports a telemetry event with the language and the
string form of the new status, then stores the new kernel value.  Named
`setKernel` because the field and the method share a name in the source. -/
def Session.setKernel (s : Session) (k : Kernel) : Session × Effects :=
  ({ s with kernel := k },
   { shutdownEvents := match k with
       | .Shutdown => 1
       | _ => 0
     telemetry := [(s.kernel_language, k.statusString)] })

/-- `Session::send`: the message reaches the transport request channel only
when the kernel is `RunningKernel`; otherwise it is dropped.  Returns the
list of contents put on the channel. -/
def Session.send (s : Session) (m : MsgContent) : Session × List MsgContent :=
  match s.kernel with
  | .RunningKernel _ => (s, [m])
  | _ => (s, [])

/-- `Session::clear_outputs`: removes every block's visual region (one batch)
and empties the block map.  Returns the batch of removed visual block ids. -/
def Session.clear_outputs (s : Session) : Session × List Nat :=
  ({ s with blocks := [] }, s.blocks.map (fun kb => kb.2.block_id))

/-- `Session::start_kernel`: reports a Starting telemetry event, spawns the
shared pending-launch task, and installs `StartingKernel` through the
setter. -/
def Session.start_kernel (s : Session) : Session × Effects :=
  let withTask := { s with nextTask := s.nextTask + 1 }
  let fin := withTask.setKernel (.StartingKernel s.nextTask)
  (fin.1,
   { fin.2 with
       telemetry := (s.kernel_language, "Starting") :: fin.2.telemetry
       spawned := SpawnedTask.pendingLaunch :: fin.2.spawned })

/-- Status of a block whose execution view status is not `Finished` after a
launch error (`Session::kernel_errored` body). -/
def markKernelErrored (msg : String) (b : EditorBlock) : EditorBlock :=
  match b.execution_view.status with
  | .Finished => b
  | _ => { b with execution_view := { b.execution_view with status := .KernelErrored msg } }

/-- `Session::kernel_errored`: installs `ErroredLaunch` through the setter,
then marks every block whose view status is not `Finished` as
kernel-errored with the same message. -/
def Session.kernel_errored (s : Session) (msg : String) : Session × Effects :=
  let fin := s.setKernel (.ErroredLaunch msg)
  ({ fin.1 with blocks := fin.1.blocks.map (fun kb => (kb.1, markKernelErrored msg kb.2)) },
   fin.2)

/-- The buffer events the session distinguishes: `multi_buffer::Event::Edited`
versus everything else. -/
inductive BufferEvent where
  | Edited
  | Other
deriving DecidableEq

/-- `Session::on_buffer_event`: on an edit, retain exactly the blocks whose
invalidation anchor is still valid in the new snapshot and remove the rest's
visual regions in one batch (only when the batch is nonempty). -/
def Session.on_buffer_event (s : Session) (ev : BufferEvent) (snap : BufferSnapshot) :
    Session × Effects :=
  match ev with
  | .Other => (s, {})
  | .Edited =>
      let removed := (s.blocks.filter
          (fun kb => !(snap.anchorValid kb.2.invalidation_anchor))).map
          (fun kb => kb.2.block_id)
      ({ s with blocks := s.blocks.filter (fun kb => snap.anchorValid kb.2.invalidation_anchor) },
       if removed.isEmpty then {} else { removedBlockBatches := [removed] })

/-- The status match inside `Session::execute`: the new block's initial
status is a pure projection of the current kernel variant. -/
def executionStatusOf (k : Kernel) : ExecutionStatus :=
  match k with
  | .Restarting => .Restarting
  | .RunningKernel _ => .Queued
  | .StartingKernel _ => .ConnectingToKernel
  | .ErroredLaunch error => .KernelErrored error
  | .ShuttingDown => .ShuttingDown
  | .Shutdown => .Shutdown

/-- The dispatch match at the end of `Session::execute`: `RunningKernel`
sends the execute request immediately, `StartingKernel` spawns the queued
send continuation, every other variant drops the message. -/
def dispatchEffOf (k : Kernel) (code : String) : Effects :=
  match k with
  | .RunningKernel _ => { sent := [MsgContent.ExecuteRequest code] }
  | .StartingKernel _ => { spawned := [SpawnedTask.queuedSend (.ExecuteRequest code)] }
  | _ => {}

/-- `Session::execute`: early-returns when the editor is gone or the code is
empty; evicts blocks overlapping the new range (visual regions removed in
one batch, before the new block is created); projects the new block's status
from the kernel variant; creates and inserts the new block (block
construction fails when the workspace is gone); dispatches the execute
request by kernel variant; finally moves the cursor when requested.
`snap` is the current buffer snapshot, `msg_id` the fresh outbound message
id, `new_block_id` the editor-assigned visual block id and `new_inv_anchor`
the anchor one row past the code. -/
def Session.execute (s : Session) (code : String) (anchor_range : AnchorRange)
    (next_cell : Option Anchor) (move_down : Bool) (snap : BufferSnapshot)
    (msg_id : String) (new_block_id : Nat) (new_inv_anchor : Anchor) :
    Session × Effects :=
  if s.editorAlive = false then (s, {})
  else if code = "" then (s, {})
  else
    let removedBatch := (s.blocks.filter
        (fun kb => snap.rangesOverlap anchor_range kb.2.code_range)).map
        (fun kb => kb.2.block_id)
    let kept := s.blocks.filter (fun kb => !(snap.rangesOverlap anchor_range kb.2.code_range))
    let evictEff : Effects := { removedBlockBatches := [removedBatch] }
    if s.workspaceAlive = false then ({ s with blocks := kept }, evictEff)
    else
      let newBlock : EditorBlock :=
        { code_range := anchor_range
          invalidation_anchor := new_inv_anchor
          block_id := new_block_id
          execution_view := { status := executionStatusOf s.kernel, output := [], displays := [] } }
      let s1 := { s with blocks := kept ++ [(msg_id, newBlock)] }
      let cursorEff : Effects :=
        if move_down then
          { cursorMoved := some (next_cell.getD new_inv_anchor) }
        else {}
      (s1, (evictEff.merge (dispatchEffOf s.kernel code)).merge cursorEff)

/-- The continuation spawned by `execute` in `StartingKernel`: after the
shared startup task resolves, upgrade the session (`none` when it was
dropped, a no-op) and call `Session::send` with the original message. -/
def runQueuedSend (m : MsgContent) (s? : Option Session) : Option Session × List MsgContent :=
  match s? with
  | none => (none, [])
  | some s => (some (s.send m).1, (s.send m).2)

/-- Deliver a message to the block matching the correlation id, if any
(`self.blocks.get_mut(parent_message_id)` followed by `handle_message`). -/
def deliverToBlock (blocks : List (String × EditorBlock)) (pid : String)
    (m : JupyterMessage) : List (String × EditorBlock) :=
  blocks.map (fun kb => if kb.1 = pid then (kb.1, kb.2.handle_message m) else kb)

/-- `Session::route`: drops messages with no parent id; `Status` updates the
execution-state field and reports telemetry, `KernelInfoReply` records the
kernel metadata — both then fall through to per-block delivery;
`UpdateDisplayData` without a display id does nothing and with one is
broadcast to every block and stops routing; every other content kind is
delivered to the correlated block only. -/
def Session.route (s : Session) (m : JupyterMessage) : Session × Effects :=
  match m.parent_msg_id with
  | none => (s, {})
  | some pid =>
    match m.content with
    | .Status st =>
        let k1 := s.kernel.set_execution_state st
        ({ s with kernel := k1, blocks := deliverToBlock s.blocks pid m },
         { telemetry := [(s.kernel_language, k1.statusString)] })
    | .KernelInfoReply info =>
        ({ s with kernel := s.kernel.set_kernel_info info
                  blocks := deliverToBlock s.blocks pid m },
         {})
    | .UpdateDisplayData odid data =>
        match odid with
        | none => (s, {})
        | some did =>
            ({ s with blocks := s.blocks.map (fun kb => (kb.1, kb.2.updateDisplay data did)) },
             {})
    | _ => ({ s with blocks := deliverToBlock s.blocks pid m }, {})

/-- `Session::shutdown`: replaces the kernel with `ShuttingDown` immediately;
from `RunningKernel` it spawns the shutdown sequence task; from any other
state it installs `Shutdown` through the setter right away. -/
def Session.shutdown (s : Session) : Session × Effects :=
  let old := s.kernel
  let s1 := { s with kernel := Kernel.ShuttingDown }
  match old with
  | .RunningKernel _ => (s1, { spawned := [SpawnedTask.shutdownSeq] })
  | _ => s1.setKernel .Shutdown

/-- The continuation spawned by `shutdown` from `RunningKernel`: sends the
shutdown request on the captured channel, awaits the forced kill (its
failure is only logged), waits the grace period, then — if the session still
exists — clears all outputs and installs `Shutdown` through the setter. -/
def runShutdownSeq (forcedOk : Bool) (s? : Option Session) : Option Session × Effects :=
  let base : Effects :=
    { sent := [MsgContent.ShutdownRequest false]
      logged := if forcedOk then [] else ["force shutdown failed"] }
  match s? with
  | none => (none, base)
  | some s =>
      let cleared := s.clear_outputs
      let fin := cleared.1.setKernel .Shutdown
      (some fin.1,
       { fin.2 with
           sent := base.sent
           logged := base.logged
           removedBlockBatches := [cleared.2] })

/-- `Session::restart`: replaces the kernel with `Restarting` immediately;
while already `Restarting` it does nothing further; from `RunningKernel` it
spawns the restart sequence task; from any other state it clears outputs and
starts a new kernel synchronously. -/
def Session.restart (s : Session) : Session × Effects :=
  let old := s.kernel
  let s1 := { s with kernel := Kernel.Restarting }
  match old with
  | .Restarting => (s1, {})
  | .RunningKernel _ => (s1, { spawned := [SpawnedTask.restartSeq] })
  | _ =>
      let cleared := s1.clear_outputs
      let fin := cleared.1.start_kernel
      (fin.1, { fin.2 with removedBlockBatches := [cleared.2] ++ fin.2.removedBlockBatches })

/-- The continuation spawned by `restart` from `RunningKernel`: sends the
restart-flagged shutdown request, waits the shorter grace period, awaits the
forced kill (failure logged), then — if the session still exists — clears
outputs and starts a new kernel. -/
def runRestartSeq (forcedOk : Bool) (s? : Option Session) : Option Session × Effects :=
  let base : Effects :=
    { sent := [MsgContent.ShutdownRequest true]
      logged := if forcedOk then [] else ["force shutdown failed"] }
  match s? with
  | none => (none, base)
  | some s =>
      let cleared := s.clear_outputs
      let fin := cleared.1.start_kernel
      (some fin.1,
       { fin.2 with
           sent := base.sent ++ fin.2.sent
           logged := base.logged ++ fin.2.logged
           removedBlockBatches := [cleared.2] ++ fin.2.removedBlockBatches })

/-- The shared startup task spawned by `start_kernel`: when it resolves, the
session (if still alive) transitions to `RunningKernel` on success or runs
`kernel_errored` on failure. -/
def runPendingLaunch (result : Except String RunningKernelState) (s? : Option Session) :
    Option Session × Effects :=
  match s? with
  | none => (none, {})
  | some s =>
      match result with
      | .ok rk =>
          let fin := s.setKernel (.RunningKernel rk)
          (some fin.1, fin.2)
      | .error e =>
          let fin := s.kernel_errored e
          (some fin.1, fin.2)

/-! Concrete states used by witnesses and counterexamples. -/

/-- A snapshot in which every anchor is valid and no ranges overlap. -/
def cSnap : BufferSnapshot :=
  { anchorValid := fun _ => true, rangesOverlap := fun _ _ => false }

/-- A concrete running-kernel payload. -/
def cRk : RunningKernelState := { execution_state := .Idle, kernel_info := none }

/-- A concrete block with a finished view. -/
def cBlock : EditorBlock :=
  { code_range := (0, 1)
    invalidation_anchor := 2
    block_id := 5
    execution_view := { status := .Finished, output := [], displays := [] } }

/-- A concrete block with a queued view showing display id "d7". -/
def cBlockQueued : EditorBlock :=
  { code_range := (10, 11)
    invalidation_anchor := 12
    block_id := 6
    execution_view := { status := .Queued, output := [], displays := [("d7", "old")] } }

/-- A session whose kernel is already shut down, holding one block. -/
def cSessionShut : Session :=
  { kernel := .Shutdown
    blocks := [("m1", cBlock)]
    kernel_language := "python"
    editorAlive := true
    workspaceAlive := true
    nextTask := 0 }

/-- A session with a running kernel, holding two blocks. -/
def cSessionRun : Session :=
  { kernel := .RunningKernel cRk
    blocks := [("m1", cBlock), ("m2", cBlockQueued)]
    kernel_language := "python"
    editorAlive := true
    workspaceAlive := true
    nextTask := 0 }

/-- A session whose kernel is still starting, with no blocks. -/
def cSessionStart : Session :=
  { kernel := .StartingKernel 0
    blocks := []
    kernel_language := "python"
    editorAlive := true
    workspaceAlive := true
    nextTask := 1 }

/-- A concrete Status(busy) message correlated to block "m1". -/
def cStatusMsg : JupyterMessage :=
  { msg_id := "s1", parent_msg_id := some "m1", content := .Status .Busy }

/-! Helper lemmas shared by several claims. -/

/-- Mapping a pair-key-preserving function over an association list preserves
the key list. -/
theorem map_fst_preserved {α β : Type} (l : List (α × β)) (g : α × β → α × β)
    (hg : ∀ x, (g x).1 = x.1) : (l.map g).map Prod.fst = l.map Prod.fst := by
  induction l with
  | nil => rfl
  | cons hd tl ih => simp [List.map_cons, hg hd, ih]

/-- Mapping a function that fixes every element of a list is the identity. -/
theorem list_map_id_of_mem {α : Type} (l : List α) (f : α → α)
    (hf : ∀ x ∈ l, f x = x) : l.map f = l := by
  induction l with
  | nil => rfl
  | cons hd tl ih =>
      simp only [List.map_cons, hf hd (List.mem_cons_self hd tl)]
      rw [ih (fun x hx => hf x (List.mem_cons_of_mem hd hx))]

/-- Updating the execution-state field never changes the lifecycle variant. -/
theorem set_execution_state_tag (k : Kernel) (st : ExecutionState) :
    (k.set_execution_state st).tag = k.tag := by
  cases k <;> rfl

/-! Claim C1. -/

/-- C1: calling `shutdown` while the kernel handle is `RunningKernel` sets the
handle to `ShuttingDown` synchronously (before `shutdown` returns) and spawns
the shutdown sequence task; whenever that task completes against a live
session — regardless of whether the forced kill reported success or failure —
the resulting kernel handle is `Shutdown` and the block collection is
empty. -/
theorem shutdown_running_reaches_shutdown (s : Session) (rk : RunningKernelState)
    (h : s.kernel = .RunningKernel rk) (forcedOk : Bool) (s2 : Session) :
    (s.shutdown).1.kernel = .ShuttingDown ∧
    (s.shutdown).2.spawned = [SpawnedTask.shutdownSeq] ∧
    (∃ s3, (runShutdownSeq forcedOk (some s2)).1 = some s3 ∧
      s3.kernel = .Shutdown ∧ s3.blocks = []) ∧
    (runShutdownSeq true (some s2)).1 = (runShutdownSeq false (some s2)).1 := by
  refine ⟨?_, ?_, ?_, ?_⟩
  · simp [Session.shutdown, h]
  · simp [Session.shutdown, h]
  · exact ⟨_, rfl, rfl, rfl⟩
  · rfl

/-- Witness for C1 at a concrete running session and a concrete
post-grace-period session holding one block. -/
theorem shutdown_running_reaches_shutdown_witness :
    (cSessionRun.shutdown).1.kernel = .ShuttingDown ∧
    (cSessionRun.shutdown).2.spawned = [SpawnedTask.shutdownSeq] ∧
    (∃ s3, (runShutdownSeq false (some cSessionShut)).1 = some s3 ∧
      s3.kernel = .Shutdown ∧ s3.blocks = []) ∧
    (runShutdownSeq true (some cSessionShut)).1 =
      (runShutdownSeq false (some cSessionShut)).1 :=
  shutdown_running_reaches_shutdown cSessionRun cRk rfl false cSessionShut

/-! Claim C6. -/

/-- C6: calling `restart` while the kernel handle is already `Restarting` is
a complete no-op (same state, no effects: nothing sent, nothing cleared,
nothing spawned); and a restart from `RunningKernel` spawns exactly one
restart sequence while leaving the state `Restarting`, so a second `restart`
issued right after the first is the no-op case. -/
theorem restart_idempotent_guard (s : Session) (h : s.kernel = .Restarting)
    (s2 : Session) (rk : RunningKernelState) (h2 : s2.kernel = .RunningKernel rk) :
    s.restart = (s, {}) ∧
    (s2.restart).2.spawned = [SpawnedTask.restartSeq] ∧
    (s2.restart).1.kernel = .Restarting ∧
    (s2.restart).1.restart = ((s2.restart).1, {}) := by
  have hs : { s with kernel := Kernel.Restarting } = s := by
    cases s
    simp_all
  have hrun : s2.restart = ({ s2 with kernel := Kernel.Restarting },
      { spawned := [SpawnedTask.restartSeq] }) := by
    simp [Session.restart, h2]
  refine ⟨?_, ?_, ?_, ?_⟩
  · simp [Session.restart, h, hs]
  · rw [hrun]
  · rw [hrun]
  · rw [hrun]
    simp [Session.restart]

/-- Witness for C6 at a concrete restarting session and a concrete running
session. -/
theorem restart_idempotent_guard_witness :
    ({ cSessionRun with kernel := Kernel.Restarting } : Session).restart =
      ({ cSessionRun with kernel := Kernel.Restarting }, {}) ∧
    (cSessionRun.restart).2.spawned = [SpawnedTask.restartSeq] ∧
    (cSessionRun.restart).1.kernel = .Restarting ∧
    (cSessionRun.restart).1.restart = ((cSessionRun.restart).1, {}) :=
  restart_idempotent_guard { cSessionRun with kernel := Kernel.Restarting } rfl
    cSessionRun cRk rfl

/-! Claim C8. -/

/-- C8 counterexample: the transition into `ShuttingDown` performed by
`shutdown` (and the one into `Restarting` performed by `restart`) replaces
the kernel value directly and emits no telemetry event at all, contradicting
the claim that every transition setting a new kernel handle emits one. -/
theorem shutdown_transition_no_telemetry_cex :
    (cSessionRun.shutdown).1.kernel = .ShuttingDown ∧
    (cSessionRun.shutdown).2.telemetry = [] ∧
    (cSessionRun.restart).1.kernel = .Restarting ∧
    (cSessionRun.restart).2.telemetry = [] := by
  refine ⟨rfl, rfl, rfl, rfl⟩

/-- C8 (amended): every transition performed through the `Session::kernel`
setter emits exactly one telemetry event tagged with the kernel language and
the string form of the new status, and additionally emits the
session-shutdown event exactly when the new state is `Shutdown`; however the
transitions into `ShuttingDown` and `Restarting` performed by `shutdown` and
`restart` bypass the setter and emit no telemetry event. -/
theorem set_kernel_emits_telemetry_amended (s : Session) (k : Kernel)
    (rk : RunningKernelState) (h : s.kernel = .RunningKernel rk) :
    (s.setKernel k).1.kernel = k ∧
    (s.setKernel k).2.telemetry = [(s.kernel_language, k.statusString)] ∧
    ((s.setKernel k).2.shutdownEvents = if k = .Shutdown then 1 else 0) ∧
    (s.shutdown).2.telemetry = [] ∧
    (s.shutdown).1.kernel = .ShuttingDown ∧
    (s.restart).2.telemetry = [] ∧
    (s.restart).1.kernel = .Restarting := by
  refine ⟨rfl, rfl, ?_, ?_, ?_, ?_, ?_⟩
  · cases k <;> simp [Session.setKernel]
  · simp [Session.shutdown, h]
  · simp [Session.shutdown, h]
  · simp [Session.restart, h]
  · simp [Session.restart, h]

/-- Witness for C8's amended theorem at a concrete session and new state. -/
theorem set_kernel_emits_telemetry_amended_witness :
    (cSessionRun.setKernel .Shutdown).1.kernel = .Shutdown ∧
    (cSessionRun.setKernel .Shutdown).2.telemetry =
      [(cSessionRun.kernel_language, Kernel.statusString .Shutdown)] ∧
    ((cSessionRun.setKernel .Shutdown).2.shutdownEvents =
      if (Kernel.Shutdown = .Shutdown) then 1 else 0) ∧
    (cSessionRun.shutdown).2.telemetry = [] ∧
    (cSessionRun.shutdown).1.kernel = .ShuttingDown ∧
    (cSessionRun.restart).2.telemetry = [] ∧
    (cSessionRun.restart).1.kernel = .Restarting :=
  set_kernel_emits_telemetry_amended cSessionRun .Shutdown cRk rfl

/-! Claim C10. -/

/-- C10: `kernel_errored` sets the kernel handle to `ErroredLaunch` with the
failure message and transforms every block in place: the key list (hence the
block count) is unchanged, each block becomes `markKernelErrored` of itself,
a block whose view status is already `Finished` is kept completely
unchanged, and any other block gets status `KernelErrored` with that same
message while its output and identity fields are untouched. -/
theorem kernel_errored_marks_unfinished_blocks (s : Session) (em : String) :
    (s.kernel_errored em).1.kernel = .ErroredLaunch em ∧
    (s.kernel_errored em).1.blocks.map Prod.fst = s.blocks.map Prod.fst ∧
    (∀ kb ∈ s.blocks, (kb.1, markKernelErrored em kb.2) ∈ (s.kernel_errored em).1.blocks) ∧
    (∀ b : EditorBlock, b.execution_view.status = .Finished → markKernelErrored em b = b) ∧
    (∀ b : EditorBlock, b.execution_view.status ≠ .Finished →
      (markKernelErrored em b).execution_view.status = .KernelErrored em ∧
      (markKernelErrored em b).execution_view.output = b.execution_view.output ∧
      (markKernelErrored em b).code_range = b.code_range ∧
      (markKernelErrored em b).block_id = b.block_id) := by
  refine ⟨rfl, ?_, ?_, ?_, ?_⟩
  · exact map_fst_preserved s.blocks _ (fun x => rfl)
  · intro kb hkb
    exact List.mem_map_of_mem (fun kb => (kb.1, markKernelErrored em kb.2)) hkb
  · intro b hb
    simp [markKernelErrored, hb]
  · intro b hb
    cases hbs : b.execution_view.status <;>
      simp_all [markKernelErrored]

/-- Witness for C10 at a concrete session holding a finished and an
unfinished block. -/
theorem kernel_errored_marks_unfinished_blocks_witness :
    (cSessionRun.kernel_errored "boom").1.kernel = .ErroredLaunch "boom" ∧
    (cSessionRun.kernel_errored "boom").1.blocks.map Prod.fst =
      cSessionRun.blocks.map Prod.fst ∧
    (("m1", markKernelErrored "boom" cBlock) ∈
      (cSessionRun.kernel_errored "boom").1.blocks ∧
     markKernelErrored "boom" cBlock = cBlock ∧
     (markKernelErrored "boom" cBlockQueued).execution_view.status =
       .KernelErrored "boom" ∧
     (markKernelErrored "boom" cBlockQueued).execution_view.output =
       cBlockQueued.execution_view.output) := by
  have h := kernel_errored_marks_unfinished_blocks cSessionRun "boom"
  refine ⟨h.1, h.2.1, ?_, ?_, ?_, ?_⟩
  · exact h.2.2.1 ("m1", cBlock) (by decide)
  · exact h.2.2.2.1 cBlock (by decide)
  · exact (h.2.2.2.2 cBlockQueued (by decide)).1
  · exact (h.2.2.2.2 cBlockQueued (by decide)).2.1

/-! Claim C5. -/

/-- C5 counterexample: routing a `Status(busy)` message while the kernel
handle is `Shutdown` is not a no-op — the `Status` arm of `route` falls
through to per-block delivery, so the block correlated to the message has
the message pushed into its execution view and the session state changes. -/
theorem route_status_shutdown_not_noop_cex :
    (cSessionShut.route cStatusMsg).1 ≠ cSessionShut ∧
    cSessionShut.kernel = .Shutdown ∧
    cStatusMsg.content = .Status .Busy := by
  refine ⟨by decide, rfl, rfl⟩

/-- C5 (amended): routing a `Status` message updates only the kernel handle's
execution-state field (the lifecycle variant tag is preserved, and a
`Shutdown` kernel stays `Shutdown`), never adds or removes an execution
block, leaves every block not matching the correlation id unchanged — but
additionally forwards the message to the block matching the correlation id,
whose execution view accumulates it. -/
theorem route_status_updates_execution_state_and_forwards (s : Session)
    (m : JupyterMessage) (st : ExecutionState) (pid : String)
    (hc : m.content = .Status st) (hp : m.parent_msg_id = some pid) :
    (s.route m).1.kernel = s.kernel.set_execution_state st ∧
    (s.route m).1.kernel.tag = s.kernel.tag ∧
    (s.route m).1.blocks.map Prod.fst = s.blocks.map Prod.fst ∧
    (∀ kb ∈ s.blocks, kb.1 ≠ pid → kb ∈ (s.route m).1.blocks) ∧
    (∀ kb ∈ s.blocks, kb.1 = pid →
      (kb.1, kb.2.handle_message m) ∈ (s.route m).1.blocks) ∧
    (s.kernel = .Shutdown → (s.route m).1.kernel = .Shutdown) := by
  have hroute : s.route m =
      ({ s with kernel := s.kernel.set_execution_state st
                blocks := deliverToBlock s.blocks pid m },
       { telemetry :=
          [(s.kernel_language, (s.kernel.set_execution_state st).statusString)] }) := by
    simp [Session.route, hp, hc]
  rw [hroute]
  refine ⟨rfl, set_execution_state_tag s.kernel st, ?_, ?_, ?_, ?_⟩
  · refine map_fst_preserved s.blocks _ (fun x => ?_)
    by_cases hx : x.1 = pid <;> simp [hx]
  · intro kb hkb hne
    refine List.mem_map.mpr ⟨kb, hkb, ?_⟩
    simp [hne]
  · intro kb hkb heq
    refine List.mem_map.mpr ⟨kb, hkb, ?_⟩
    simp [heq]
  · intro hk
    rw [hk]
    rfl

/-- Witness for C5's amended theorem at a concrete session with a correlated
and a non-correlated block. -/
theorem route_status_amended_witness :
    (cSessionRun.route cStatusMsg).1.kernel =
      cSessionRun.kernel.set_execution_state .Busy ∧
    (cSessionRun.route cStatusMsg).1.kernel.tag = cSessionRun.kernel.tag ∧
    (cSessionRun.route cStatusMsg).1.blocks.map Prod.fst =
      cSessionRun.blocks.map Prod.fst ∧
    (("m2", cBlockQueued) ∈ (cSessionRun.route cStatusMsg).1.blocks ∧
     ("m1", cBlock.handle_message cStatusMsg) ∈ (cSessionRun.route cStatusMsg).1.blocks) := by
  have h := route_status_updates_execution_state_and_forwards cSessionRun cStatusMsg
    .Busy "m1" rfl rfl
  refine ⟨h.1, h.2.1, h.2.2.1, ?_, ?_⟩
  · exact h.2.2.2.1 ("m2", cBlockQueued) (by decide) (by decide)
  · exact h.2.2.2.2.1 ("m1", cBlock) (by decide) rfl

/-! Claim C4. -/

/-- C4: on a buffer `Edited` event, a block survives exactly when its
invalidation anchor is still valid in the post-edit snapshot (surviving
blocks are kept unchanged, as the same key-block pairs); the evicted blocks'
visual regions are removed in at most one batch, which is exactly the list
of invalid blocks' ids and is issued exactly when some block was invalid;
non-edit events change nothing. -/
theorem buffer_edit_evicts_exactly_invalid (s : Session) (snap : BufferSnapshot) :
    (∀ kb ∈ s.blocks,
      (kb ∈ (s.on_buffer_event .Edited snap).1.blocks ↔
        snap.anchorValid kb.2.invalidation_anchor = true)) ∧
    (s.on_buffer_event .Edited snap).1.kernel = s.kernel ∧
    ((s.on_buffer_event .Edited snap).2.removedBlockBatches = [] ∨
      (s.on_buffer_event .Edited snap).2.removedBlockBatches =
        [(s.blocks.filter (fun kb => !(snap.anchorValid kb.2.invalidation_anchor))).map
          (fun kb => kb.2.block_id)]) ∧
    ((s.blocks.filter (fun kb => !(snap.anchorValid kb.2.invalidation_anchor))).map
          (fun kb => kb.2.block_id) = [] ↔
      (s.on_buffer_event .Edited snap).2.removedBlockBatches = []) ∧
    s.on_buffer_event .Other snap = (s, {}) := by
  have hblocks : (s.on_buffer_event .Edited snap).1.blocks =
      s.blocks.filter (fun kb => snap.anchorValid kb.2.invalidation_anchor) := by
    simp [Session.on_buffer_event]
  refine ⟨?_, ?_, ?_, ?_, rfl⟩
  · intro kb hkb
    rw [hblocks]
    simp [List.mem_filter, hkb]
  · simp [Session.on_buffer_event]
  · by_cases hempty : ((s.blocks.filter
        (fun kb => !(snap.anchorValid kb.2.invalidation_anchor))).map
        (fun kb => kb.2.block_id)).isEmpty
    · left
      simp [Session.on_buffer_event, hempty]
    · right
      simp [Session.on_buffer_event, hempty]
  · by_cases hempty : ((s.blocks.filter
        (fun kb => !(snap.anchorValid kb.2.invalidation_anchor))).map
        (fun kb => kb.2.block_id)).isEmpty
    · constructor
      · intro _
        simp [Session.on_buffer_event, hempty]
      · intro _
        exact List.isEmpty_iff.mp hempty
    · constructor
      · intro hnil
        exact absurd (List.isEmpty_iff.mpr hnil) hempty
      · intro hbat
        exfalso
        rw [show (s.on_buffer_event .Edited snap).2.removedBlockBatches =
          [(s.blocks.filter (fun kb => !(snap.anchorValid kb.2.invalidation_anchor))).map
            (fun kb => kb.2.block_id)] from by simp [Session.on_buffer_event, hempty]] at hbat
        exact List.cons_ne_nil _ _ hbat

/-- Witness for C4 at a concrete session and a snapshot that invalidates one
of the two blocks. -/
theorem buffer_edit_evicts_exactly_invalid_witness :
    (("m1", cBlock) ∈
      (cSessionRun.on_buffer_event .Edited
        { anchorValid := fun a => a = 2, rangesOverlap := fun _ _ => false }).1.blocks ↔
      ((fun a => decide (a = 2)) cBlock.invalidation_anchor) = true) ∧
    (cSessionRun.on_buffer_event .Edited
      { anchorValid := fun a => a = 2, rangesOverlap := fun _ _ => false }).1.kernel =
      cSessionRun.kernel := by
  have h := buffer_edit_evicts_exactly_invalid cSessionRun
    { anchorValid := fun a => a = 2, rangesOverlap := fun _ _ => false }
  exact ⟨h.1 ("m1", cBlock) (by decide), h.2.1⟩

/-! Claim C7. -/

/-- C7: routing an `UpdateDisplayData` message carrying a display id delivers
the update to every block (each key-block pair reappears with
`updateDisplay` applied, keys unchanged), routing stops afterwards so no
block — the correlated one included — has the message pushed into its
accumulated output (the update never touches `output` or `status`), blocks
not showing that display id are kept completely unchanged, and an
`UpdateDisplayData` message without a display id changes nothing. -/
theorem route_update_display_data_broadcast (s : Session) (m : JupyterMessage)
    (did data pid : String)
    (hc : m.content = .UpdateDisplayData (some did) data)
    (hp : m.parent_msg_id = some pid) :
    (∀ kb ∈ s.blocks, (kb.1, kb.2.updateDisplay data did) ∈ (s.route m).1.blocks) ∧
    (s.route m).1.blocks.map Prod.fst = s.blocks.map Prod.fst ∧
    (∀ b : EditorBlock,
      (b.updateDisplay data did).execution_view.output = b.execution_view.output ∧
      (b.updateDisplay data did).execution_view.status = b.execution_view.status) ∧
    (∀ kb ∈ s.blocks, kb.2.execution_view.showsDisplay did = false →
      kb ∈ (s.route m).1.blocks) ∧
    (s.route m).1.kernel = s.kernel ∧
    (s.route m).2.sent = [] ∧
    (∀ m2 : JupyterMessage, ∀ p2 d2 : String,
      m2.content = .UpdateDisplayData none d2 → m2.parent_msg_id = some p2 →
      s.route m2 = (s, {})) := by
  have hroute : s.route m =
      ({ s with blocks := s.blocks.map (fun kb => (kb.1, kb.2.updateDisplay data did)) },
       {}) := by
    simp [Session.route, hp, hc]
  have hfix : ∀ b : EditorBlock, b.execution_view.showsDisplay did = false →
      b.updateDisplay data did = b := by
    intro b hb
    have hdisp : b.execution_view.displays.map
        (fun p => if p.1 = did then (p.1, data) else p) = b.execution_view.displays := by
      refine list_map_id_of_mem _ _ (fun p hp2 => ?_)
      have hne : ¬(p.1 = did) := by
        simp only [ExecutionView.showsDisplay, List.any_eq_false] at hb
        exact fun hcontra => by simpa [hcontra] using hb p hp2
      simp [hne]
    simp [EditorBlock.updateDisplay, ExecutionView.update_display_data, hdisp]
  rw [hroute]
  refine ⟨?_, ?_, ?_, ?_, rfl, rfl, ?_⟩
  · intro kb hkb
    exact List.mem_map_of_mem (fun kb => (kb.1, kb.2.updateDisplay data did)) hkb
  · exact map_fst_preserved s.blocks _ (fun x => rfl)
  · intro b
    exact ⟨rfl, rfl⟩
  · intro kb hkb hshow
    refine List.mem_map.mpr ⟨kb, hkb, ?_⟩
    rw [hfix kb.2 hshow]
  · intro m2 p2 d2 hc2 hp2
    simp [Session.route, hp2, hc2]

/-- Witness for C7 at a concrete session where one block shows the display id
and the other does not. -/
theorem route_update_display_data_broadcast_witness :
    (("m2", cBlockQueued.updateDisplay "new" "d7") ∈
      (cSessionRun.route
        { msg_id := "u1", parent_msg_id := some "m2"
          content := .UpdateDisplayData (some "d7") "new" }).1.blocks) ∧
    (("m1", cBlock) ∈
      (cSessionRun.route
        { msg_id := "u1", parent_msg_id := some "m2"
          content := .UpdateDisplayData (some "d7") "new" }).1.blocks) ∧
    (cSessionRun.route
      { msg_id := "u2", parent_msg_id := some "m2"
        content := .UpdateDisplayData none "new" }) = (cSessionRun, {}) := by
  have h := route_update_display_data_broadcast cSessionRun
    { msg_id := "u1", parent_msg_id := some "m2"
      content := .UpdateDisplayData (some "d7") "new" } "d7" "new" "m2" rfl rfl
  refine ⟨?_, ?_, ?_⟩
  · exact h.1 ("m2", cBlockQueued) (by decide)
  · exact h.2.2.2.1 ("m1", cBlock) (by decide) (by decide)
  · exact h.2.2.2.2.2.2
      { msg_id := "u2", parent_msg_id := some "m2"
        content := .UpdateDisplayData none "new" } "m2" "new" rfl rfl

/-! Shared unfolding lemmas for `Session.execute`. -/

/-- Unfolding of `execute` when the editor and workspace are alive and the
code is nonempty. -/
theorem execute_unfold (s : Session) (code : String) (r : AnchorRange)
    (nc : Option Anchor) (md : Bool) (snap : BufferSnapshot)
    (mid : String) (bid : Nat) (inv : Anchor)
    (hed : s.editorAlive = true) (hcode : code ≠ "") (hws : s.workspaceAlive = true) :
    s.execute code r nc md snap mid bid inv =
      ({ s with blocks :=
          s.blocks.filter (fun kb => !(snap.rangesOverlap r kb.2.code_range)) ++
          [(mid, { code_range := r, invalidation_anchor := inv, block_id := bid
                   execution_view :=
                     { status := executionStatusOf s.kernel, output := [], displays := [] } })] },
       Effects.merge
         (Effects.merge
           { removedBlockBatches := [(s.blocks.filter
               (fun kb => snap.rangesOverlap r kb.2.code_range)).map
               (fun kb => kb.2.block_id)] }
           (dispatchEffOf s.kernel code))
         (if md then { cursorMoved := some (nc.getD inv) } else {})) := by
  simp [Session.execute, hed, hws, hcode]

/-- The dispatch effect never removes visual blocks. -/
theorem dispatchEffOf_removedBlockBatches (k : Kernel) (code : String) :
    (dispatchEffOf k code).removedBlockBatches = [] := by
  cases k <;> rfl

/-! Claim C3. -/

/-- C3: for a nonempty execute with live collaborators and a fresh message
id, exactly the existing blocks whose code range overlaps the new anchor
range (tested against the given snapshot) disappear from the collection and
have their visual block ids in the single pre-insertion removal batch, every
non-overlapping block survives, and the new block is appended only after the
filtered survivors. -/
theorem execute_evicts_exactly_overlapping (s : Session) (code : String)
    (r : AnchorRange) (nc : Option Anchor) (md : Bool) (snap : BufferSnapshot)
    (mid : String) (bid : Nat) (inv : Anchor)
    (hed : s.editorAlive = true) (hcode : code ≠ "") (hws : s.workspaceAlive = true)
    (hfresh : ∀ kb ∈ s.blocks, kb.1 ≠ mid) :
    (∃ b, (s.execute code r nc md snap mid bid inv).1.blocks =
      s.blocks.filter (fun kb => !(snap.rangesOverlap r kb.2.code_range)) ++ [(mid, b)]) ∧
    (s.execute code r nc md snap mid bid inv).2.removedBlockBatches =
      [(s.blocks.filter (fun kb => snap.rangesOverlap r kb.2.code_range)).map
        (fun kb => kb.2.block_id)] ∧
    (∀ kb ∈ s.blocks,
      (kb ∈ (s.execute code r nc md snap mid bid inv).1.blocks ↔
        snap.rangesOverlap r kb.2.code_range = false)) := by
  have hexec := execute_unfold s code r nc md snap mid bid inv hed hcode hws
  refine ⟨?_, ?_, ?_⟩
  · exact ⟨_, by rw [hexec]⟩
  · rw [hexec]
    show ([_] ++ (dispatchEffOf s.kernel code).removedBlockBatches) ++
        (if md then ({ cursorMoved := some (nc.getD inv) } : Effects) else {}).removedBlockBatches
      = [_]
    rw [dispatchEffOf_removedBlockBatches]
    cases md <;> rfl
  · intro kb hkb
    rw [hexec]
    simp only [List.mem_append, List.mem_filter, List.mem_singleton]
    constructor
    · intro hmem
      rcases hmem with ⟨_, hover⟩ | hnew
      · simpa using hover
      · exact absurd (congrArg Prod.fst hnew) (hfresh kb hkb)
    · intro hover
      exact Or.inl ⟨hkb, by simp [hover]⟩

/-- Witness for C3 at a concrete session and a snapshot under which the new
range overlaps exactly one of the two blocks. -/
theorem execute_evicts_exactly_overlapping_witness :
    (∃ b, (cSessionRun.execute "x" (0, 1) none false
        { anchorValid := fun _ => true
          rangesOverlap := fun a b2 => a = (0, 1) && b2 = (0, 1) }
        "m9" 7 3).1.blocks =
      cSessionRun.blocks.filter
        (fun kb => !((fun (a b2 : AnchorRange) => a = (0, 1) && b2 = (0, 1)) (0, 1)
          kb.2.code_range)) ++ [("m9", b)]) ∧
    (("m1", cBlock) ∈ (cSessionRun.execute "x" (0, 1) none false
        { anchorValid := fun _ => true
          rangesOverlap := fun a b2 => a = (0, 1) && b2 = (0, 1) }
        "m9" 7 3).1.blocks ↔
      ((fun (a b2 : AnchorRange) => a = (0, 1) && b2 = (0, 1)) (0, 1)
        cBlock.code_range) = false) := by
  have h := execute_evicts_exactly_overlapping cSessionRun "x" (0, 1) none false
    { anchorValid := fun _ => true
      rangesOverlap := fun a b2 => a = (0, 1) && b2 = (0, 1) }
    "m9" 7 3 rfl (by decide) rfl (by decide)
  exact ⟨h.1, h.2.2 ("m1", cBlock) (by decide)⟩

/-! Claim C9. -/

/-- C9: an `execute` call with empty code is a complete no-op (same session,
no effects); a call with nonempty code and live editor collaborators creates
exactly one new block, appended after the surviving blocks, whose initial
status is the pure projection of the current kernel variant: queued when
running, connecting when starting, errored with the launch message after a
failed launch, and restarting, shutting-down or shutdown statuses in the
corresponding lifecycle states. -/
theorem execute_noop_empty_and_status_projection (s : Session) (code : String)
    (r : AnchorRange) (nc : Option Anchor) (md : Bool) (snap : BufferSnapshot)
    (mid : String) (bid : Nat) (inv : Anchor)
    (hed : s.editorAlive = true) (hws : s.workspaceAlive = true) (hcode : code ≠ "") :
    s.execute "" r nc md snap mid bid inv = (s, {}) ∧
    (∃ b, (s.execute code r nc md snap mid bid inv).1.blocks =
        s.blocks.filter (fun kb => !(snap.rangesOverlap r kb.2.code_range)) ++ [(mid, b)] ∧
      b.execution_view.output = [] ∧
      b.code_range = r ∧
      (∀ rk, s.kernel = .RunningKernel rk → b.execution_view.status = .Queued) ∧
      (∀ t, s.kernel = .StartingKernel t →
        b.execution_view.status = .ConnectingToKernel) ∧
      (∀ e, s.kernel = .ErroredLaunch e → b.execution_view.status = .KernelErrored e) ∧
      (s.kernel = .Restarting → b.execution_view.status = .Restarting) ∧
      (s.kernel = .ShuttingDown → b.execution_view.status = .ShuttingDown) ∧
      (s.kernel = .Shutdown → b.execution_view.status = .Shutdown)) := by
  have hexec := execute_unfold s code r nc md snap mid bid inv hed hcode hws
  constructor
  · simp [Session.execute, hed]
  · refine ⟨_, by rw [hexec], rfl, rfl, ?_, ?_, ?_, ?_, ?_, ?_⟩ <;>
      first
      | (intro x hx
         show executionStatusOf s.kernel = _
         rw [hx]
         rfl)
      | (intro hx
         show executionStatusOf s.kernel = _
         rw [hx]
         rfl)

/-- Witness for C9 at a concrete starting-kernel session. -/
theorem execute_status_projection_witness :
    cSessionStart.execute "" (0, 1) none false cSnap "m9" 7 3 = (cSessionStart, {}) ∧
    (∃ b, (cSessionStart.execute "1+1" (0, 1) none false cSnap "m9" 7 3).1.blocks =
        cSessionStart.blocks.filter
          (fun kb => !(cSnap.rangesOverlap (0, 1) kb.2.code_range)) ++ [("m9", b)] ∧
      b.execution_view.output = [] ∧
      b.code_range = (0, 1) ∧
      (∀ rk, cSessionStart.kernel = .RunningKernel rk →
        b.execution_view.status = .Queued) ∧
      (∀ t, cSessionStart.kernel = .StartingKernel t →
        b.execution_view.status = .ConnectingToKernel) ∧
      (∀ e, cSessionStart.kernel = .ErroredLaunch e →
        b.execution_view.status = .KernelErrored e) ∧
      (cSessionStart.kernel = .Restarting → b.execution_view.status = .Restarting) ∧
      (cSessionStart.kernel = .ShuttingDown → b.execution_view.status = .ShuttingDown) ∧
      (cSessionStart.kernel = .Shutdown → b.execution_view.status = .Shutdown)) :=
  execute_noop_empty_and_status_projection cSessionStart "1+1" (0, 1) none false cSnap
    "m9" 7 3 rfl rfl (by decide)

/-! Claim C2. -/

/-- C2 counterexample: with the kernel in `StartingKernel`, `execute`
attaches the queued-send continuation; in the reachable run where the shared
startup task resolves to a launch failure, the continuation fires with the
session still alive and yet sends nothing at all — the message is not sent
exactly once as claimed. -/
theorem execute_starting_queued_send_dropped_cex :
    (cSessionStart.execute "1+1" (0, 1) none false cSnap "mid" 7 2).2.spawned =
      [SpawnedTask.queuedSend (.ExecuteRequest "1+1")] ∧
    (runPendingLaunch (.error "boom")
      (some (cSessionStart.execute "1+1" (0, 1) none false cSnap "mid" 7 2).1)).1.isSome =
      true ∧
    runQueuedSend (.ExecuteRequest "1+1")
      (runPendingLaunch (.error "boom")
        (some (cSessionStart.execute "1+1" (0, 1) none false cSnap "mid" 7 2).1)).1 =
      ((runPendingLaunch (.error "boom")
        (some (cSessionStart.execute "1+1" (0, 1) none false cSnap "mid" 7 2).1)).1,
       []) := by
  refine ⟨by decide, by decide, by decide⟩

/-- C2 (amended): the outbound dispatch of a nonempty `execute` depends only
on the current kernel variant — `RunningKernel` sends the execute request
immediately and spawns nothing; `StartingKernel` sends nothing now and
attaches exactly one queued-send continuation which, once the shared startup
task resolves, is a no-op when the session is gone, transmits the original
message exactly once when the session is alive with the kernel then running,
and transmits nothing when the kernel is then in any non-running state (for
example after a failed launch); every other variant neither sends nor queues
anything. -/
theorem execute_dispatch_by_kernel_variant (s : Session) (code : String)
    (r : AnchorRange) (nc : Option Anchor) (md : Bool) (snap : BufferSnapshot)
    (mid : String) (bid : Nat) (inv : Anchor)
    (hed : s.editorAlive = true) (hws : s.workspaceAlive = true) (hcode : code ≠ "") :
    (∀ rk, s.kernel = .RunningKernel rk →
      (s.execute code r nc md snap mid bid inv).2.sent = [MsgContent.ExecuteRequest code] ∧
      (s.execute code r nc md snap mid bid inv).2.spawned = []) ∧
    (∀ t, s.kernel = .StartingKernel t →
      (s.execute code r nc md snap mid bid inv).2.sent = [] ∧
      (s.execute code r nc md snap mid bid inv).2.spawned =
        [SpawnedTask.queuedSend (.ExecuteRequest code)] ∧
      runQueuedSend (.ExecuteRequest code) none = (none, []) ∧
      (∀ s2 rk2, s2.kernel = .RunningKernel rk2 →
        runQueuedSend (.ExecuteRequest code) (some s2) =
          (some s2, [MsgContent.ExecuteRequest code])) ∧
      (∀ s2, (∀ rk2, s2.kernel ≠ .RunningKernel rk2) →
        runQueuedSend (.ExecuteRequest code) (some s2) = (some s2, []))) ∧
    ((∀ rk, s.kernel ≠ .RunningKernel rk) → (∀ t, s.kernel ≠ .StartingKernel t) →
      (s.execute code r nc md snap mid bid inv).2.sent = [] ∧
      (s.execute code r nc md snap mid bid inv).2.spawned = []) := by
  have hexec := execute_unfold s code r nc md snap mid bid inv hed hcode hws
  have hsent : (s.execute code r nc md snap mid bid inv).2.sent =
      (dispatchEffOf s.kernel code).sent := by
    rw [hexec]
    show ([] ++ (dispatchEffOf s.kernel code).sent) ++
        (if md then ({ cursorMoved := some (nc.getD inv) } : Effects) else {}).sent =
      (dispatchEffOf s.kernel code).sent
    cases md <;> simp
  have hspawned : (s.execute code r nc md snap mid bid inv).2.spawned =
      (dispatchEffOf s.kernel code).spawned := by
    rw [hexec]
    show ([] ++ (dispatchEffOf s.kernel code).spawned) ++
        (if md then ({ cursorMoved := some (nc.getD inv) } : Effects) else {}).spawned =
      (dispatchEffOf s.kernel code).spawned
    cases md <;> simp
  refine ⟨?_, ?_, ?_⟩
  · intro rk hk
    rw [hsent, hspawned, hk]
    exact ⟨rfl, rfl⟩
  · intro t hk
    rw [hsent, hspawned, hk]
    refine ⟨rfl, rfl, rfl, ?_, ?_⟩
    · intro s2 rk2 h2
      simp [runQueuedSend, Session.send, h2]
    · intro s2 h2
      cases hk2 : s2.kernel
      case RunningKernel rk2 => exact absurd hk2 (h2 rk2)
      all_goals simp [runQueuedSend, Session.send, hk2]
  · intro hnr hns
    cases hk : s.kernel
    case RunningKernel rk => exact absurd hk (hnr rk)
    case StartingKernel t => exact absurd hk (hns t)
    all_goals
      rw [hsent, hspawned, hk]
      exact ⟨rfl, rfl⟩

/-- Witness for C2's amended theorem at a concrete starting-kernel session,
including a successful-startup continuation run. -/
theorem execute_dispatch_by_kernel_variant_witness :
    (cSessionStart.execute "1+1" (0, 1) none false cSnap "mid" 7 2).2.sent = [] ∧
    (cSessionStart.execute "1+1" (0, 1) none false cSnap "mid" 7 2).2.spawned =
      [SpawnedTask.queuedSend (.ExecuteRequest "1+1")] ∧
    runQueuedSend (.ExecuteRequest "1+1") (some cSessionRun) =
      (some cSessionRun, [MsgContent.ExecuteRequest "1+1"]) ∧
    runQueuedSend (.ExecuteRequest "1+1") none = (none, []) := by
  have h := execute_dispatch_by_kernel_variant cSessionStart "1+1" (0, 1) none false cSnap
    "mid" 7 2 rfl rfl (by decide)
  have hs := h.2.1 0 rfl
  exact ⟨hs.1, hs.2.1, hs.2.2.2.1 cSessionRun cRk rfl, hs.2.2.1⟩

end ZedRepl
